import Mathlib

/-
Verification development for the composition engine of
`garmin_graphics_generator` (src/garmin_graphics_generator/core.py).

Shallow embedding conventions:
- Python `int` values are modelled as `ℤ` (or `ℕ` where the source value is
  a PIL image dimension or a sampled coordinate, which are non-negative).
- Python `float` arithmetic is modelled as exact rational arithmetic (`ℚ`);
  `int(x)` (truncation toward zero) is modelled by `pyInt`.
- `random.uniform` draws and `random.randint` raw draws are supplied as
  oracle parameters (a drawn value, or a stream of raw natural numbers that
  is reduced modulo the requested range, so every possible outcome of
  `randint(0, m)` is covered as the raw stream varies).
- `PIL.Image.rotate(angle, expand=True)` changes the pixel dimensions by a
  floating-point trigonometric formula; its output size is modelled by an
  oracle function `rotDims : ℚ → ℕ × ℕ → ℕ × ℕ` (angle, input size ↦ output
  size).  All theorems below are quantified over this oracle, so they hold
  for every possible rotation behaviour.
- An image is represented by its pixel dimensions `(width, height) : ℕ × ℕ`;
  the claims under verification only concern dimensions, placement
  rectangles, warnings and whether an output is produced.
-/

/-- Truncation toward zero of a rational, the semantics of Python `int(x)`
applied to a float. -/
def pyInt (q : ℚ) : ℤ :=
  if 0 ≤ q then ⌊q⌋ else -⌊-q⌋

/-- Axis-aligned rectangle `(x, y, w, h)` in canvas space, the tuple used
throughout `core.py` for placed bounding boxes. -/
structure Rect where
  x : ℤ
  y : ℤ
  w : ℤ
  h : ℤ
deriving DecidableEq

/-- Embedding of `WatchHeroGenerator._calculate_overlap_percentage`
(core.py lines 312-339).  Computes the overlap percentage of two
rectangles relative to the smaller area, as an exact rational. -/
def _calculate_overlap_percentage (rect1 rect2 : Rect) : ℚ :=
  let inter_x := max rect1.x rect2.x
  let inter_y := max rect1.y rect2.y
  let inter_w := min (rect1.x + rect1.w) (rect2.x + rect2.w) - inter_x
  let inter_h := min (rect1.y + rect1.h) (rect2.y + rect2.h) - inter_y
  if inter_w ≤ 0 ∨ inter_h ≤ 0 then 0
  else
    let intersection_area := inter_w * inter_h
    let area1 := rect1.w * rect1.h
    let area2 := rect2.w * rect2.h
    let min_area := min area1 area2
    if min_area = 0 then 0
    else ((intersection_area : ℚ) / (min_area : ℚ)) * 100

/-- Reference definition of the overlap percentage, written from the
specification text of section 4.1 (single guard
`iw <= 0 or ih <= 0 or min(area(a),area(b)) == 0`), to be compared with
the source embedding. -/
def overlapPercentageSpec (a b : Rect) : ℚ :=
  let ix := max a.x b.x
  let iy := max a.y b.y
  let iw := min (a.x + a.w) (b.x + b.w) - ix
  let ih := min (a.y + a.h) (b.y + b.h) - iy
  if iw ≤ 0 ∨ ih ≤ 0 ∨ min (a.w * a.h) (b.w * b.h) = 0 then 0
  else ((iw * ih : ℤ) : ℚ) / ((min (a.w * a.h) (b.w * b.h) : ℤ) : ℚ) * 100

/-- The configuration state of `WatchHeroGenerator` relevant to the
composition engine: hero canvas size, variation levels and max overlap
(core.py lines 37-45).  Canvas dimensions are `ℕ` (a negative hero size
is rejected by PIL before any of the embedded code runs); the remaining
fields are arbitrary Python ints, hence `ℤ`. -/
structure Config where
  heroWidth : ℕ
  heroHeight : ℕ
  sizeVariation : ℤ
  orientationVariation : ℤ
  maxOverlap : ℤ
deriving DecidableEq

/-- Embedding of `WatchHeroGenerator.set_variations` (core.py lines 80-90):
stores both values as given, without any clamping. -/
def set_variations (g : Config) (size_var orientation_var : ℤ) : Config :=
  { g with sizeVariation := size_var, orientationVariation := orientation_var }

/-- Embedding of `WatchHeroGenerator.set_max_overlap` (core.py lines 92-97):
clamps the argument into `[0, 100]` before storing it. -/
def set_max_overlap (g : Config) (overlap_percent : ℤ) : Config :=
  { g with maxOverlap := max 0 (min 100 overlap_percent) }

/-- The scaling part of `WatchHeroGenerator._apply_random_transforms`
(core.py lines 363-372): given the current dimensions and the drawn scale
factor, truncate `w * factor` and `h * factor` toward zero with `int`,
and resize only when both results are positive; otherwise the image is
left at its current size. -/
def scaleStep (cur_w cur_h : ℕ) (scale_factor : ℚ) : ℕ × ℕ :=
  if scale_factor ≠ 1 then
    let new_w := pyInt ((cur_w : ℚ) * scale_factor)
    let new_h := pyInt ((cur_h : ℚ) * scale_factor)
    if 0 < new_w ∧ 0 < new_h then (new_w.toNat, new_h.toNat) else (cur_w, cur_h)
  else (cur_w, cur_h)

/-- The random-scale step as the specification's section 4.2 describes it:
multiply each dimension by the factor, round to the nearest integer pixel
and clamp each dimension to at least 1px. -/
def scaleStepSpec (cur_w cur_h : ℕ) (scale_factor : ℚ) : ℕ × ℕ :=
  (max 1 (round ((cur_w : ℚ) * scale_factor)).toNat,
   max 1 (round ((cur_h : ℚ) * scale_factor)).toNat)

/-- The random-scale step with the corrected rounding semantics: floor
(truncation toward zero, which agrees with floor for the non-negative
factors the pipeline draws), and the resize skipped whenever either
floored dimension is zero. -/
def scaleStepFloorRef (cur_w cur_h : ℕ) (scale_factor : ℚ) : ℕ × ℕ :=
  if 0 < ⌊(cur_w : ℚ) * scale_factor⌋ ∧ 0 < ⌊(cur_h : ℚ) * scale_factor⌋ then
    ((⌊(cur_w : ℚ) * scale_factor⌋).toNat, (⌊(cur_h : ℚ) * scale_factor⌋).toNat)
  else (cur_w, cur_h)

/-- Oracle draws consumed by one call of `_apply_random_transforms`: the
value of `random.uniform(-ov, ov)` and of `random.uniform(min_scale,
max_scale)`.  Quantifying over this structure covers every possible draw. -/
structure TransformRng where
  angleDraw : ℚ
  scaleDraw : ℚ

/-- Embedding of `WatchHeroGenerator._apply_random_transforms`
(core.py lines 341-373) at the level of pixel dimensions.  The size of
`image.rotate(angle, expand=True)` is given by the oracle `rotDims`; the
scaling step is `scaleStep`. -/
def _apply_random_transforms (cfg : Config) (rotDims : ℚ → ℕ × ℕ → ℕ × ℕ)
    (rng : TransformRng) (image : ℕ × ℕ) : ℕ × ℕ :=
  let angle : ℚ := if 0 < cfg.orientationVariation then rng.angleDraw else 0
  let transformed := rotDims angle image
  let scale_factor : ℚ := if 0 < cfg.sizeVariation then rng.scaleDraw else 1
  scaleStep transformed.1 transformed.2 scale_factor

/-- Embedding of `WatchHeroGenerator._calculate_auto_scale_factor`
(core.py lines 207-226).  `math.sqrt` is a float operation whose result is
irrational in general; it is supplied as an oracle `sqrtFn`, and every
theorem below quantifies over it.  The float constant `0.6` is modelled as
the exact rational `6/10`. -/
def _calculate_auto_scale_factor (cfg : Config) (num_images : ℕ)
    (sqrtFn : ℚ → ℚ) : ℚ :=
  if num_images ≤ 1 then 1
  else
    let canvas_area : ℚ := (cfg.heroWidth : ℚ) * (cfg.heroHeight : ℚ)
    let target_total_area := canvas_area * (6 / 10)
    let target_area_per_image := target_total_area / (num_images : ℚ)
    sqrtFn target_area_per_image

/-- Step 1 of `WatchHeroGenerator._prepare_image_for_canvas`
(core.py lines 235-244): when `0 < target_dim_heuristic < max(w, h)`,
shrink both dimensions by `target_dim_heuristic / max(w, h)`, truncating
with `int`. -/
def heuristicPreShrink (base_image : ℕ × ℕ) (target_dim_heuristic : ℚ) : ℕ × ℕ :=
  let current_max := max base_image.1 base_image.2
  if 0 < target_dim_heuristic ∧ target_dim_heuristic < (current_max : ℚ) then
    let ratio := target_dim_heuristic / (current_max : ℚ)
    ((pyInt ((base_image.1 : ℚ) * ratio)).toNat,
     (pyInt ((base_image.2 : ℚ) * ratio)).toNat)
  else base_image

/-- Step 3 of `WatchHeroGenerator._prepare_image_for_canvas`
(core.py lines 251-259): if either dimension exceeds the canvas, scale
both by `min(canvas_w / w, canvas_h / h)`, truncate with `int`, and force
each dimension to at least 1px. -/
def hardCap (cfg : Config) (image : ℕ × ℕ) : ℕ × ℕ :=
  if cfg.heroWidth < image.1 ∨ cfg.heroHeight < image.2 then
    let ratio : ℚ := min ((cfg.heroWidth : ℚ) / (image.1 : ℚ))
                         ((cfg.heroHeight : ℚ) / (image.2 : ℚ))
    (max 1 (pyInt ((image.1 : ℚ) * ratio)).toNat,
     max 1 (pyInt ((image.2 : ℚ) * ratio)).toNat)
  else image

/-- Embedding of `WatchHeroGenerator._prepare_image_for_canvas`
(core.py lines 228-261): heuristic pre-shrink, then random transforms,
then the hard canvas cap. -/
def _prepare_image_for_canvas (cfg : Config) (rotDims : ℚ → ℕ × ℕ → ℕ × ℕ)
    (rng : TransformRng) (base_image : ℕ × ℕ) (target_dim_heuristic : ℚ) : ℕ × ℕ :=
  let shrunk := heuristicPreShrink base_image target_dim_heuristic
  let final_image := _apply_random_transforms cfg rotDims rng shrunk
  hardCap cfg final_image

/-- The `for placed_rect in placed_rects` loop of
`WatchHeroGenerator._check_collision` (core.py lines 300-310), returning
the verdict together with the number of overlap-percentage computations
performed (the loop returns at the first violating rectangle). -/
def _check_collision_loop (cfg : Config) (new_rect : Rect) :
    List Rect → ℕ → Bool × ℕ
  | [], checks => (false, checks)
  | placed_rect :: rest, checks =>
    let overlap_pct := _calculate_overlap_percentage new_rect placed_rect
    if cfg.maxOverlap = 0 ∧ 0 < overlap_pct then (true, checks + 1)
    else if (cfg.maxOverlap : ℚ) < overlap_pct then (true, checks + 1)
    else _check_collision_loop cfg new_rect rest (checks + 1)

/-- Embedding of `WatchHeroGenerator._check_collision`
(core.py lines 288-310), instrumented with the count of
overlap-percentage computations: with `max_overlap >= 100` it returns
`False` before the loop, performing none. -/
def _check_collision_trace (cfg : Config) (new_rect : Rect)
    (placed_rects : List Rect) : Bool × ℕ :=
  if 100 ≤ cfg.maxOverlap then (false, 0)
  else _check_collision_loop cfg new_rect placed_rects 0

/-- The Boolean verdict of `WatchHeroGenerator._check_collision`. -/
def _check_collision (cfg : Config) (new_rect : Rect)
    (placed_rects : List Rect) : Bool :=
  (_check_collision_trace cfg new_rect placed_rects).1

/-- The `for _ in range(max_attempts)` loop of
`WatchHeroGenerator._find_valid_position` (core.py lines 277-286),
with the remaining fuel and the number of attempts made so far as
explicit arguments.  `random.randint(0, m)` is modelled by reducing the
raw sample modulo `m + 1`, so every value in `[0, m]` is reachable.
`max(0, canvas_w - img_w)` coincides with truncated `ℕ` subtraction. -/
def _find_valid_position_aux (cfg : Config) (img_w img_h : ℕ)
    (placed_rects : List Rect) (samples : ℕ → ℕ × ℕ) :
    ℕ → ℕ → Option (ℕ × ℕ) × ℕ
  | 0, attempts => (none, attempts)
  | fuel + 1, attempts =>
    let max_x := cfg.heroWidth - img_w
    let max_y := cfg.heroHeight - img_h
    let raw := samples attempts
    let pos_x := raw.1 % (max_x + 1)
    let pos_y := raw.2 % (max_y + 1)
    let new_rect : Rect := ⟨(pos_x : ℤ), (pos_y : ℤ), (img_w : ℤ), (img_h : ℤ)⟩
    if _check_collision cfg new_rect placed_rects = false then
      (some (pos_x, pos_y), attempts + 1)
    else _find_valid_position_aux cfg img_w img_h placed_rects samples fuel (attempts + 1)

/-- Embedding of `WatchHeroGenerator._find_valid_position`
(core.py lines 263-286): up to `max_attempts = 100` draws; the second
component is the number of sampling attempts actually performed. -/
def _find_valid_position (cfg : Config) (image_size : ℕ × ℕ)
    (placed_rects : List Rect) (samples : ℕ → ℕ × ℕ) :
    Option (ℕ × ℕ) × ℕ :=
  _find_valid_position_aux cfg image_size.1 image_size.2 placed_rects samples 100 0

/-- All random draws consumed while placing a single image: the transform
draws and the raw position samples. -/
structure PlaceRng where
  transform : TransformRng
  samples : ℕ → ℕ × ℕ

/-- The mutable state of one composition run that the claims are about:
the append-only placed-rectangle list and the number of
"could not place image" warnings logged. -/
structure DriverState where
  placed_rects : List Rect
  warnings : ℕ
deriving DecidableEq

/-- The body of the `for i, base_image in enumerate(images_to_place)` loop
of `generate_hero_composition` (core.py lines 179-199): prepare the image,
search for a position; on success paste it (recorded by appending its
bounding box to `placed_rects`), otherwise log a warning and leave the
canvas and the rectangle list untouched. -/
def placeImage (cfg : Config) (rotDims : ℚ → ℕ × ℕ → ℕ × ℕ) (base_scale : ℚ)
    (st : DriverState) (base_image : ℕ × ℕ) (rng : PlaceRng) : DriverState :=
  let final_image := _prepare_image_for_canvas cfg rotDims rng.transform base_image base_scale
  match (_find_valid_position cfg final_image st.placed_rects rng.samples).1 with
  | some p =>
    { st with placed_rects :=
        st.placed_rects ++ [⟨(p.1 : ℤ), (p.2 : ℤ), (final_image.1 : ℤ), (final_image.2 : ℤ)⟩] }
  | none => { st with warnings := st.warnings + 1 }

/-- The placement loop over the shuffled image list; the index threads the
per-image random draws. -/
def placeAll (cfg : Config) (rotDims : ℚ → ℕ × ℕ → ℕ × ℕ) (base_scale : ℚ)
    (rngs : ℕ → PlaceRng) : List (ℕ × ℕ) → ℕ → DriverState → DriverState
  | [], _, st => st
  | base_image :: rest, i, st =>
    placeAll cfg rotDims base_scale rngs rest (i + 1)
      (placeImage cfg rotDims base_scale st base_image (rngs i))

/-- Observable outcome of `generate_hero_composition`: the canvas created
(by dimensions), the placed bounding boxes, the warnings, and the canvas
handed to `save` (`none` when no save happened). -/
structure HeroResult where
  canvas : Option (ℕ × ℕ)
  placed_rects : List Rect
  warnings : ℕ
  saved : Option (ℕ × ℕ)
deriving DecidableEq

/-- Embedding of `WatchHeroGenerator.generate_hero_composition`
(core.py lines 160-205).  `random.shuffle` is modelled by the oracle
`shuffle`; when the processed-image list is empty the method returns at
line 165 before creating, pasting onto, or saving any canvas. -/
def generate_hero_composition (cfg : Config) (rotDims : ℚ → ℕ × ℕ → ℕ × ℕ)
    (sqrtFn : ℚ → ℚ) (shuffle : List (ℕ × ℕ) → List (ℕ × ℕ))
    (rngs : ℕ → PlaceRng) (processed_images : List (ℕ × ℕ)) : HeroResult :=
  if processed_images = [] then
    { canvas := none, placed_rects := [], warnings := 0, saved := none }
  else
    let images_to_place := shuffle processed_images
    let base_scale := _calculate_auto_scale_factor cfg images_to_place.length sqrtFn
    let final := placeAll cfg rotDims base_scale rngs images_to_place 0
      { placed_rects := [], warnings := 0 }
    { canvas := some (cfg.heroWidth, cfg.heroHeight),
      placed_rects := final.placed_rects,
      warnings := final.warnings,
      saved := some (cfg.heroWidth, cfg.heroHeight) }

/-- A placed rectangle lies entirely within the configured canvas. -/
def inCanvas (cfg : Config) (r : Rect) : Prop :=
  0 ≤ r.x ∧ 0 ≤ r.y ∧ r.x + r.w ≤ (cfg.heroWidth : ℤ) ∧ r.y + r.h ≤ (cfg.heroHeight : ℤ)

instance (cfg : Config) (r : Rect) : Decidable (inCanvas cfg r) := by
  unfold inCanvas; infer_instance

/-- A sample configuration: 1440×720 canvas, no variations, strict overlap. -/
def cfgDefault : Config := ⟨1440, 720, 0, 0, 0⟩

/-- A sample configuration with a 1×1 canvas (used to exhaust placement). -/
def cfgTight : Config := ⟨1, 1, 0, 0, 0⟩

/-- A sample configuration with unconstrained overlap. -/
def cfgLoose : Config := ⟨4, 4, 0, 0, 100⟩

/-- Sample rotation oracle: rotation leaves the dimensions unchanged
(the behaviour of `rotate(0, expand=True)`). -/
def rotDimsId : ℚ → ℕ × ℕ → ℕ × ℕ := fun _ image => image

/-- Sample square-root oracle. -/
def sqrtZero : ℚ → ℚ := fun _ => 0

/-- Sample raw-position stream: always draw `(0, 0)`. -/
def samplesZero : ℕ → ℕ × ℕ := fun _ => (0, 0)

/-- Sample transform draws. -/
def trZero : TransformRng := { angleDraw := 0, scaleDraw := 1 }

/-- Sample per-image random draws. -/
def rngZero : PlaceRng := { transform := trZero, samples := samplesZero }

/-- Sample per-image random draw stream. -/
def rngsZero : ℕ → PlaceRng := fun _ => rngZero

/-- Claim C5: for every pair of rectangles, `_calculate_overlap_percentage`
equals the reference definition of section 4.1: zero when the intersection
is empty or the smaller area is zero (so no division by zero is performed),
and `(iw*ih) / min(area(a), area(b)) * 100` otherwise. -/
theorem c5_overlap_matches_spec (a b : Rect) :
    _calculate_overlap_percentage a b = overlapPercentageSpec a b := by
  simp only [_calculate_overlap_percentage, overlapPercentageSpec]
  split_ifs with h1 h2 h3 h4 <;> first | rfl | tauto

/-- Claim C9: the overlap-percentage computation is symmetric in its two
arguments. -/
theorem c9_overlap_symmetric (a b : Rect) :
    _calculate_overlap_percentage a b = _calculate_overlap_percentage b a := by
  simp only [_calculate_overlap_percentage]
  rw [max_comm a.x b.x, max_comm a.y b.y, min_comm (a.x + a.w) (b.x + b.w),
      min_comm (a.y + a.h) (b.y + b.h), min_comm (a.w * a.h) (b.w * b.h)]

/-- Counterexample to claim C3: `set_variations 11 91` stores the
out-of-range values 11 and 91 unchanged, instead of clamping them to the
documented ranges `[0,10]` and `[0,90]`. -/
theorem c3_clamping_counterexample :
    (set_variations cfgDefault 11 91).sizeVariation = 11 ∧
    (set_variations cfgDefault 11 91).orientationVariation = 91 ∧
    ¬ (set_variations cfgDefault 11 91).sizeVariation ≤ 10 ∧
    ¬ (set_variations cfgDefault 11 91).orientationVariation ≤ 90 := by
  decide

/-- Claim C3 as amended: only `set_max_overlap` clamps its argument (into
`[0,100]`, returning it unchanged when already in range);
`set_variations` stores `size_variation` and `orientation_variation`
exactly as given, with no clamping. -/
theorem c3_clamping_amended :
    ∀ (g : Config) (overlap_percent size_var orientation_var : ℤ),
    0 ≤ (set_max_overlap g overlap_percent).maxOverlap ∧
    (set_max_overlap g overlap_percent).maxOverlap ≤ 100 ∧
    (0 ≤ overlap_percent → overlap_percent ≤ 100 →
      (set_max_overlap g overlap_percent).maxOverlap = overlap_percent) ∧
    (set_variations g size_var orientation_var).sizeVariation = size_var ∧
    (set_variations g size_var orientation_var).orientationVariation = orientation_var := by
  intro g o s v
  refine ⟨?_, ?_, ?_, rfl, rfl⟩ <;> (simp [set_max_overlap]; try omega)

/-- Witness for `c3_clamping_amended` at a concrete in-range input. -/
theorem c3_clamping_amended_witness :
    0 ≤ (set_max_overlap cfgDefault 50).maxOverlap ∧
    (set_max_overlap cfgDefault 50).maxOverlap ≤ 100 ∧
    (0 ≤ (50:ℤ) → (50:ℤ) ≤ 100 →
      (set_max_overlap cfgDefault 50).maxOverlap = 50) ∧
    (set_variations cfgDefault 11 91).sizeVariation = 11 ∧
    (set_variations cfgDefault 11 91).orientationVariation = 91 :=
  c3_clamping_amended cfgDefault 50 11 91

/-- Counterexample to claim C4: at input dimensions 4×4 with the drawn
factor 7/10 (drawable, since with `size_variation = 10` factors range over
`[1/2, 3]`), the code truncates `4 * 0.7 = 2.8` to 2, while the claim's
rounding to the nearest integer pixel would give 3. -/
theorem c4_scale_rounding_counterexample :
    scaleStep 4 4 (7/10) = (2, 2) ∧ scaleStepSpec 4 4 (7/10) = (3, 3) ∧
    ((2, 2) : ℕ × ℕ) ≠ (3, 3) ∧ ((1:ℚ)/2 ≤ 7/10 ∧ (7:ℚ)/10 ≤ 3) := by
  refine ⟨?_, ?_, by decide, by norm_num⟩
  · norm_num [scaleStep, pyInt, Int.floor_eq_iff]
    rfl
  · norm_num [scaleStepSpec, round_eq, Int.floor_eq_iff]
    rfl

/-- Claim C4 as amended: for every non-negative drawn factor other than
1.0, the random-scale step multiplies each dimension by the factor and
truncates toward zero (floor), and when either truncated dimension is 0
the resize is skipped entirely (the input dimensions are kept) instead of
being clamped to 1px. -/
theorem c4_scale_rounding_amended (cur_w cur_h : ℕ) (scale_factor : ℚ)
    (hf : 0 ≤ scale_factor) (hne : scale_factor ≠ 1) :
    scaleStep cur_w cur_h scale_factor = scaleStepFloorRef cur_w cur_h scale_factor := by
  have hw0 : (0:ℚ) ≤ (cur_w : ℚ) * scale_factor :=
    mul_nonneg (by positivity) hf
  have hh0 : (0:ℚ) ≤ (cur_h : ℚ) * scale_factor :=
    mul_nonneg (by positivity) hf
  simp only [scaleStep, scaleStepFloorRef, pyInt, if_pos hw0, if_pos hh0, hne,
    ne_eq, not_false_eq_true, if_true]

/-- Witness for `c4_scale_rounding_amended` at the concrete factor 7/10
(written `mkRat 7 10` so that the hypotheses evaluate). -/
theorem c4_scale_rounding_amended_witness :
    0 ≤ mkRat 7 10 ∧ mkRat 7 10 ≠ 1 ∧
    scaleStep 4 4 (mkRat 7 10) = scaleStepFloorRef 4 4 (mkRat 7 10) :=
  ⟨by decide, by decide, c4_scale_rounding_amended 4 4 (mkRat 7 10) (by decide) (by decide)⟩

/-- Counterexample to claim C2: composing an empty processed-object list
creates no canvas and saves nothing — the driver returns at once. -/
theorem c2_empty_run_counterexample :
    (generate_hero_composition cfgDefault rotDimsId sqrtZero id rngsZero []).saved = none ∧
    (generate_hero_composition cfgDefault rotDimsId sqrtZero id rngsZero []).canvas = none := by
  decide

/-- Claim C2 as amended: when the processed-object list is empty the
composition driver returns immediately — no canvas is created and nothing
is handed off for saving; only a non-empty list produces a saved canvas of
the configured hero size. -/
theorem c2_empty_run_amended :
    ∀ (cfg : Config) (rotDims : ℚ → ℕ × ℕ → ℕ × ℕ) (sqrtFn : ℚ → ℚ)
      (shuffle : List (ℕ × ℕ) → List (ℕ × ℕ)) (rngs : ℕ → PlaceRng)
      (processed_images : List (ℕ × ℕ)),
    (processed_images = [] →
      generate_hero_composition cfg rotDims sqrtFn shuffle rngs processed_images =
        { canvas := none, placed_rects := [], warnings := 0, saved := none }) ∧
    (processed_images ≠ [] →
      (generate_hero_composition cfg rotDims sqrtFn shuffle rngs processed_images).saved =
        some (cfg.heroWidth, cfg.heroHeight) ∧
      (generate_hero_composition cfg rotDims sqrtFn shuffle rngs processed_images).canvas =
        some (cfg.heroWidth, cfg.heroHeight)) := by
  intro cfg rotDims sqrtFn shuffle rngs imgs
  constructor
  · intro h
    simp [generate_hero_composition, h]
  · intro h
    simp [generate_hero_composition, h]

/-- Witness for `c2_empty_run_amended` at the empty list and at a
singleton list. -/
theorem c2_empty_run_amended_witness :
    generate_hero_composition cfgDefault rotDimsId sqrtZero id rngsZero [] =
      { canvas := none, placed_rects := [], warnings := 0, saved := none } ∧
    (generate_hero_composition cfgDefault rotDimsId sqrtZero id rngsZero [(1, 1)]).saved =
      some (cfgDefault.heroWidth, cfgDefault.heroHeight) :=
  ⟨(c2_empty_run_amended cfgDefault rotDimsId sqrtZero id rngsZero []).1 rfl,
   ((c2_empty_run_amended cfgDefault rotDimsId sqrtZero id rngsZero [(1, 1)]).2 (by decide)).1⟩

/-- Unfolding of one sampling attempt of `_find_valid_position_aux`. -/
theorem find_aux_succ (cfg : Config) (img_w img_h : ℕ) (placed_rects : List Rect)
    (samples : ℕ → ℕ × ℕ) (fuel attempts : ℕ) :
    _find_valid_position_aux cfg img_w img_h placed_rects samples (fuel + 1) attempts =
      if _check_collision cfg
           ⟨((samples attempts).1 % (cfg.heroWidth - img_w + 1) : ℕ),
            ((samples attempts).2 % (cfg.heroHeight - img_h + 1) : ℕ),
            (img_w : ℤ), (img_h : ℤ)⟩ placed_rects = false then
        (some ((samples attempts).1 % (cfg.heroWidth - img_w + 1),
               (samples attempts).2 % (cfg.heroHeight - img_h + 1)), attempts + 1)
      else _find_valid_position_aux cfg img_w img_h placed_rects samples fuel (attempts + 1) :=
  rfl

/-- Claim C8: with `max_overlap >= 100`, the collision check answers
`False` before its loop, performing zero overlap-percentage computations,
and the placement search accepts the candidate of its very first sampling
attempt (returning after exactly one attempt). -/
theorem c8_full_overlap_first_sample (cfg : Config) (hmo : 100 ≤ cfg.maxOverlap) :
    (∀ (new_rect : Rect) (placed_rects : List Rect),
      _check_collision_trace cfg new_rect placed_rects = (false, 0)) ∧
    (∀ (image_size : ℕ × ℕ) (placed_rects : List Rect) (samples : ℕ → ℕ × ℕ),
      image_size.1 ≤ cfg.heroWidth → image_size.2 ≤ cfg.heroHeight →
      _find_valid_position cfg image_size placed_rects samples =
        (some ((samples 0).1 % (cfg.heroWidth - image_size.1 + 1),
               (samples 0).2 % (cfg.heroHeight - image_size.2 + 1)), 1)) := by
  have htrace : ∀ (new_rect : Rect) (placed_rects : List Rect),
      _check_collision_trace cfg new_rect placed_rects = (false, 0) := by
    intro r p
    simp [_check_collision_trace, hmo]
  refine ⟨htrace, ?_⟩
  intro sz placed samples _ _
  rw [_find_valid_position, show (100:ℕ) = 99 + 1 from rfl, find_aux_succ]
  simp [_check_collision, htrace]

/-- Witness for `c8_full_overlap_first_sample` at `max_overlap = 100`
with a 1×1 image on a 4×4 canvas. -/
theorem c8_full_overlap_first_sample_witness :
    100 ≤ cfgLoose.maxOverlap ∧
    _check_collision_trace cfgLoose ⟨0, 0, 1, 1⟩ [⟨0, 0, 1, 1⟩] = (false, 0) ∧
    _find_valid_position cfgLoose (1, 1) [⟨0, 0, 1, 1⟩] samplesZero = (some (0, 0), 1) := by
  refine ⟨by decide, (c8_full_overlap_first_sample cfgLoose (by decide)).1 _ _, ?_⟩
  have h := (c8_full_overlap_first_sample cfgLoose (by decide)).2 (1, 1)
    [⟨0, 0, 1, 1⟩] samplesZero (by decide) (by decide)
  simpa [samplesZero] using h

/-- Claim C10: against an empty placed-rectangle list the collision check
answers `False` for every candidate and every configuration, the placement
search therefore succeeds on its very first attempt, and the first object
processed in a run (the image prepared for it) is always placed — the
driver step appends exactly one rectangle, skipping nothing. -/
theorem c10_first_object_always_placed :
    (∀ (cfg : Config) (new_rect : Rect), _check_collision cfg new_rect [] = false) ∧
    (∀ (cfg : Config) (image_size : ℕ × ℕ) (samples : ℕ → ℕ × ℕ),
      _find_valid_position cfg image_size [] samples =
        (some ((samples 0).1 % (cfg.heroWidth - image_size.1 + 1),
               (samples 0).2 % (cfg.heroHeight - image_size.2 + 1)), 1)) ∧
    (∀ (cfg : Config) (rotDims : ℚ → ℕ × ℕ → ℕ × ℕ) (base_scale : ℚ)
       (st : DriverState) (base_image : ℕ × ℕ) (rng : PlaceRng),
      st.placed_rects = [] →
      (placeImage cfg rotDims base_scale st base_image rng).placed_rects.length = 1) := by
  have hcheck : ∀ (cfg : Config) (new_rect : Rect), _check_collision cfg new_rect [] = false := by
    intro cfg r
    simp only [_check_collision, _check_collision_trace, _check_collision_loop]
    split_ifs <;> rfl
  have hfind : ∀ (cfg : Config) (image_size : ℕ × ℕ) (samples : ℕ → ℕ × ℕ),
      _find_valid_position cfg image_size [] samples =
        (some ((samples 0).1 % (cfg.heroWidth - image_size.1 + 1),
               (samples 0).2 % (cfg.heroHeight - image_size.2 + 1)), 1) := by
    intro cfg sz samples
    rw [_find_valid_position, show (100:ℕ) = 99 + 1 from rfl, find_aux_succ]
    simp [hcheck]
  refine ⟨hcheck, hfind, ?_⟩
  intro cfg rotDims base_scale st img rng hst
  simp [placeImage, hst, hfind]

/-- Witness for `c10_first_object_always_placed` on the empty driver
state. -/
theorem c10_first_object_always_placed_witness :
    _check_collision cfgDefault ⟨0, 0, 7, 7⟩ [] = false ∧
    _find_valid_position cfgDefault (1, 1) [] samplesZero = (some (0, 0), 1) ∧
    (placeImage cfgDefault rotDimsId 0 ⟨[], 0⟩ (1, 1) rngZero).placed_rects.length = 1 := by
  refine ⟨c10_first_object_always_placed.1 _ _, ?_, ?_⟩
  · have h := c10_first_object_always_placed.2.1 cfgDefault (1, 1) samplesZero
    simpa [samplesZero] using h
  · exact c10_first_object_always_placed.2.2 cfgDefault rotDimsId 0 ⟨[], 0⟩ (1, 1) rngZero rfl

/-- The attempt counter of the placement loop advances by at most the
available fuel. -/
theorem find_aux_attempts_le (cfg : Config) (img_w img_h : ℕ)
    (placed_rects : List Rect) (samples : ℕ → ℕ × ℕ) :
    ∀ (fuel attempts : ℕ),
      (_find_valid_position_aux cfg img_w img_h placed_rects samples fuel attempts).2 ≤
        attempts + fuel := by
  intro fuel
  induction fuel with
  | zero => intro attempts; simp [_find_valid_position_aux]
  | succ n ih =>
    intro attempts
    rw [find_aux_succ]
    split_ifs
    · simp only []
      omega
    · have := ih (attempts + 1)
      omega

/-- Claim C7: the placement search performs at most 100 sampling attempts,
and when it returns no position the driver step leaves the placed-rectangle
list (and hence the canvas) untouched and only increments the warning
count, continuing with the remaining objects.  (Both functions are total,
so no exception can be raised.) -/
theorem c7_placement_exhaustion :
    (∀ (cfg : Config) (image_size : ℕ × ℕ) (placed_rects : List Rect)
       (samples : ℕ → ℕ × ℕ),
      (_find_valid_position cfg image_size placed_rects samples).2 ≤ 100) ∧
    (∀ (cfg : Config) (rotDims : ℚ → ℕ × ℕ → ℕ × ℕ) (base_scale : ℚ)
       (st : DriverState) (base_image : ℕ × ℕ) (rng : PlaceRng),
      (_find_valid_position cfg
          (_prepare_image_for_canvas cfg rotDims rng.transform base_image base_scale)
          st.placed_rects rng.samples).1 = none →
      placeImage cfg rotDims base_scale st base_image rng =
        { st with warnings := st.warnings + 1 }) := by
  constructor
  · intro cfg sz placed samples
    have := find_aux_attempts_le cfg sz.1 sz.2 placed samples 100 0
    simpa [_find_valid_position] using this
  · intro cfg rotDims base_scale st img rng hnone
    simp [placeImage, hnone]

/-- Overlap of the unit rectangle with itself is 100%. -/
theorem overlap_unit_self :
    _calculate_overlap_percentage ⟨0, 0, 1, 1⟩ ⟨0, 0, 1, 1⟩ = 100 := by
  norm_num [_calculate_overlap_percentage]

/-- On the 1×1 canvas with strict overlap, the unit candidate always
collides with an already placed unit rectangle. -/
theorem collision_unit :
    _check_collision cfgTight ⟨0, 0, 1, 1⟩ [⟨0, 0, 1, 1⟩] = true := by
  simp [_check_collision, _check_collision_trace, _check_collision_loop,
    cfgTight, overlap_unit_self]

/-- Exhaustion on the 1×1 canvas: every attempt draws the colliding unit
candidate, so the search consumes all its fuel and fails. -/
theorem find_aux_exhausts_unit :
    ∀ (fuel attempts : ℕ),
      _find_valid_position_aux cfgTight 1 1 [⟨0, 0, 1, 1⟩] samplesZero fuel attempts =
        (none, attempts + fuel) := by
  intro fuel
  induction fuel with
  | zero => intro attempts; simp [_find_valid_position_aux]
  | succ n ih =>
    intro attempts
    rw [find_aux_succ]
    have hw : cfgTight.heroWidth = 1 := rfl
    have hh : cfgTight.heroHeight = 1 := rfl
    have hs : samplesZero attempts = (0, 0) := rfl
    simp only [hw, hh, hs, Nat.sub_self, Nat.zero_add, Nat.zero_mod, Nat.mod_one,
      Nat.cast_zero, Nat.cast_one]
    rw [collision_unit]
    simp only [Bool.true_eq_false, if_false]
    rw [ih (attempts + 1)]
    congr 1
    omega

/-- Witness for `c7_placement_exhaustion`: a second unit object on an
occupied 1×1 canvas exhausts all 100 attempts; the driver step then leaves
the placed list unchanged and adds one warning. -/
theorem c7_placement_exhaustion_witness :
    (_find_valid_position cfgTight
        (_prepare_image_for_canvas cfgTight rotDimsId rngZero.transform (1, 1) 0)
        (DriverState.mk [⟨0, 0, 1, 1⟩] 0).placed_rects rngZero.samples).1 = none ∧
    placeImage cfgTight rotDimsId 0 (DriverState.mk [⟨0, 0, 1, 1⟩] 0) (1, 1) rngZero =
      { DriverState.mk [⟨0, 0, 1, 1⟩] 0 with
          warnings := (DriverState.mk [⟨0, 0, 1, 1⟩] 0).warnings + 1 } ∧
    (_find_valid_position cfgTight (1, 1) [⟨0, 0, 1, 1⟩] samplesZero).2 ≤ 100 := by
  have hprep : _prepare_image_for_canvas cfgTight rotDimsId rngZero.transform (1, 1) 0 =
      (1, 1) := by
    simp [_prepare_image_for_canvas, heuristicPreShrink, _apply_random_transforms,
      scaleStep, hardCap, cfgTight, rotDimsId, rngZero, trZero]
  have hnone : (_find_valid_position cfgTight
      (_prepare_image_for_canvas cfgTight rotDimsId rngZero.transform (1, 1) 0)
      (DriverState.mk [⟨0, 0, 1, 1⟩] 0).placed_rects rngZero.samples).1 = none := by
    rw [hprep]
    show (_find_valid_position cfgTight (1, 1) [⟨0, 0, 1, 1⟩] samplesZero).1 = none
    rw [_find_valid_position, find_aux_exhausts_unit 100 0]
  exact ⟨hnone,
    c7_placement_exhaustion.2 cfgTight rotDimsId 0 (DriverState.mk [⟨0, 0, 1, 1⟩] 0)
      (1, 1) rngZero hnone,
    c7_placement_exhaustion.1 cfgTight (1, 1) [⟨0, 0, 1, 1⟩] samplesZero⟩

/-- Truncating a rational `x` with `0 ≤ x ≤ c` yields a natural at most
`c`. -/
theorem pyInt_toNat_le (x : ℚ) (c : ℕ) (hx0 : 0 ≤ x) (hxc : x ≤ (c : ℚ)) :
    (pyInt x).toNat ≤ c := by
  rw [pyInt, if_pos hx0, Int.toNat_le]
  calc ⌊x⌋ ≤ ⌊(c : ℚ)⌋ := Int.floor_le_floor hxc
    _ = (c : ℤ) := Int.floor_natCast c

/-- Scaling a dimension by a non-negative ratio bounded by `c / a` keeps
the product below `c` (including the degenerate `a = 0` case, where the
product is 0). -/
theorem nat_mul_ratio_le (a c : ℕ) (r : ℚ) (hra : r ≤ (c : ℚ) / (a : ℚ)) :
    (a : ℚ) * r ≤ (c : ℚ) := by
  rcases Nat.eq_zero_or_pos a with h0 | hpos
  · simp only [h0, Nat.cast_zero, zero_mul]
    exact_mod_cast Nat.zero_le c
  · have ha : (0 : ℚ) < (a : ℚ) := by exact_mod_cast hpos
    have h1 : (a : ℚ) * r ≤ (a : ℚ) * ((c : ℚ) / (a : ℚ)) :=
      mul_le_mul_of_nonneg_left hra ha.le
    calc (a : ℚ) * r ≤ (a : ℚ) * ((c : ℚ) / (a : ℚ)) := h1
      _ = (c : ℚ) := by rw [mul_comm]; exact div_mul_cancel₀ _ (ne_of_gt ha)

/-- The canvas-fit clamper never returns a dimension exceeding the canvas,
provided the canvas is at least 1×1. -/
theorem hardCap_le (cfg : Config) (hw : 1 ≤ cfg.heroWidth) (hh : 1 ≤ cfg.heroHeight)
    (image : ℕ × ℕ) :
    (hardCap cfg image).1 ≤ cfg.heroWidth ∧ (hardCap cfg image).2 ≤ cfg.heroHeight := by
  unfold hardCap
  split_ifs with hcond
  · have hr0 : (0 : ℚ) ≤ min ((cfg.heroWidth : ℚ) / (image.1 : ℚ))
        ((cfg.heroHeight : ℚ) / (image.2 : ℚ)) :=
      le_min (div_nonneg (Nat.cast_nonneg _) (Nat.cast_nonneg _))
        (div_nonneg (Nat.cast_nonneg _) (Nat.cast_nonneg _))
    have h1 : (image.1 : ℚ) * min ((cfg.heroWidth : ℚ) / (image.1 : ℚ))
        ((cfg.heroHeight : ℚ) / (image.2 : ℚ)) ≤ (cfg.heroWidth : ℚ) :=
      nat_mul_ratio_le _ _ _ (min_le_left _ _)
    have h2 : (image.2 : ℚ) * min ((cfg.heroWidth : ℚ) / (image.1 : ℚ))
        ((cfg.heroHeight : ℚ) / (image.2 : ℚ)) ≤ (cfg.heroHeight : ℚ) :=
      nat_mul_ratio_le _ _ _ (min_le_right _ _)
    exact ⟨max_le hw (pyInt_toNat_le _ _ (mul_nonneg (Nat.cast_nonneg _) hr0) h1),
           max_le hh (pyInt_toNat_le _ _ (mul_nonneg (Nat.cast_nonneg _) hr0) h2)⟩
  · push_neg at hcond
    exact ⟨hcond.1, hcond.2⟩

/-- The prepared image always fits the canvas (it ends with `hardCap`). -/
theorem prepare_le (cfg : Config) (hw : 1 ≤ cfg.heroWidth) (hh : 1 ≤ cfg.heroHeight)
    (rotDims : ℚ → ℕ × ℕ → ℕ × ℕ) (rng : TransformRng) (base_image : ℕ × ℕ)
    (target_dim_heuristic : ℚ) :
    (_prepare_image_for_canvas cfg rotDims rng base_image target_dim_heuristic).1 ≤
      cfg.heroWidth ∧
    (_prepare_image_for_canvas cfg rotDims rng base_image target_dim_heuristic).2 ≤
      cfg.heroHeight := by
  unfold _prepare_image_for_canvas
  exact hardCap_le cfg hw hh _

/-- When the placement loop succeeds, the returned position keeps an image
of the given (canvas-fitting) size inside the canvas. -/
theorem find_aux_some_bounds (cfg : Config) (img_w img_h : ℕ) (placed_rects : List Rect)
    (samples : ℕ → ℕ × ℕ) (hw : img_w ≤ cfg.heroWidth) (hh : img_h ≤ cfg.heroHeight) :
    ∀ (fuel attempts : ℕ) (p : ℕ × ℕ) (n : ℕ),
      _find_valid_position_aux cfg img_w img_h placed_rects samples fuel attempts =
        (some p, n) →
      p.1 + img_w ≤ cfg.heroWidth ∧ p.2 + img_h ≤ cfg.heroHeight := by
  intro fuel
  induction fuel with
  | zero =>
    intro attempts p n h
    exact absurd h (by simp [_find_valid_position_aux])
  | succ m ih =>
    intro attempts p n h
    rw [find_aux_succ] at h
    split_ifs at h with hcol
    · simp only [Prod.mk.injEq, Option.some.injEq] at h
      obtain ⟨hp, -⟩ := h
      have hx : p.1 = (samples attempts).1 % (cfg.heroWidth - img_w + 1) := by
        rw [← hp]
      have hy : p.2 = (samples attempts).2 % (cfg.heroHeight - img_h + 1) := by
        rw [← hp]
      have hbx : (samples attempts).1 % (cfg.heroWidth - img_w + 1) <
          cfg.heroWidth - img_w + 1 := Nat.mod_lt _ (Nat.succ_pos _)
      have hby : (samples attempts).2 % (cfg.heroHeight - img_h + 1) <
          cfg.heroHeight - img_h + 1 := Nat.mod_lt _ (Nat.succ_pos _)
      omega
    · exact ih (attempts + 1) p n h

/-- A successful driver step appends a rectangle that lies in the canvas;
rectangles already in the state stay untouched. -/
theorem placeImage_inCanvas (cfg : Config) (hw : 1 ≤ cfg.heroWidth)
    (hh : 1 ≤ cfg.heroHeight) (rotDims : ℚ → ℕ × ℕ → ℕ × ℕ) (base_scale : ℚ)
    (st : DriverState) (base_image : ℕ × ℕ) (rng : PlaceRng)
    (hst : ∀ r ∈ st.placed_rects, inCanvas cfg r) :
    ∀ r ∈ (placeImage cfg rotDims base_scale st base_image rng).placed_rects,
      inCanvas cfg r := by
  intro r hr
  rcases hpos : (_find_valid_position cfg
      (_prepare_image_for_canvas cfg rotDims rng.transform base_image base_scale)
      st.placed_rects rng.samples).1 with _ | p
  · simp only [placeImage, hpos] at hr
    exact hst r hr
  · simp only [placeImage, hpos, List.mem_append, List.mem_singleton] at hr
    rcases hr with hold | hnew
    · exact hst r hold
    · have hfle := prepare_le cfg hw hh rotDims rng.transform base_image base_scale
      have hfull : _find_valid_position cfg
          (_prepare_image_for_canvas cfg rotDims rng.transform base_image base_scale)
          st.placed_rects rng.samples =
          (some p, (_find_valid_position cfg
            (_prepare_image_for_canvas cfg rotDims rng.transform base_image base_scale)
            st.placed_rects rng.samples).2) := by
        rw [← hpos]
      have hb := find_aux_some_bounds cfg _ _ st.placed_rects rng.samples hfle.1 hfle.2
        100 0 p _ hfull
      subst hnew
      dsimp only [inCanvas]
      refine ⟨Int.natCast_nonneg _, Int.natCast_nonneg _, ?_, ?_⟩
      · exact_mod_cast hb.1
      · exact_mod_cast hb.2

/-- The placement loop preserves the in-canvas invariant of the
placed-rectangle list. -/
theorem placeAll_inCanvas (cfg : Config) (hw : 1 ≤ cfg.heroWidth)
    (hh : 1 ≤ cfg.heroHeight) (rotDims : ℚ → ℕ × ℕ → ℕ × ℕ) (base_scale : ℚ)
    (rngs : ℕ → PlaceRng) :
    ∀ (images : List (ℕ × ℕ)) (i : ℕ) (st : DriverState),
      (∀ r ∈ st.placed_rects, inCanvas cfg r) →
      ∀ r ∈ (placeAll cfg rotDims base_scale rngs images i st).placed_rects,
        inCanvas cfg r := by
  intro images
  induction images with
  | nil =>
    intro i st hst
    simpa [placeAll] using hst
  | cons img rest ih =>
    intro i st hst
    rw [placeAll]
    exact ih (i + 1) _ (placeImage_inCanvas cfg hw hh rotDims base_scale st img (rngs i) hst)

/-- Claim C6: in a composition run with a canvas of at least 1×1, every
rectangle appended to the placed-rectangle list lies entirely within the
canvas: `0 ≤ x`, `0 ≤ y`, `x + w ≤ canvasWidth`, `y + h ≤ canvasHeight`.
This holds for every rotation oracle, square-root oracle, shuffle and
random stream, because the canvas-fit clamper bounds the prepared
dimensions by the canvas and the search samples positions inside
`[0, canvas - image]`. -/
theorem c6_placed_rects_in_canvas (cfg : Config) (hw : 1 ≤ cfg.heroWidth)
    (hh : 1 ≤ cfg.heroHeight) (rotDims : ℚ → ℕ × ℕ → ℕ × ℕ) (sqrtFn : ℚ → ℚ)
    (shuffle : List (ℕ × ℕ) → List (ℕ × ℕ)) (rngs : ℕ → PlaceRng)
    (processed_images : List (ℕ × ℕ)) (r : Rect)
    (hr : r ∈ (generate_hero_composition cfg rotDims sqrtFn shuffle rngs
        processed_images).placed_rects) :
    0 ≤ r.x ∧ 0 ≤ r.y ∧ r.x + r.w ≤ (cfg.heroWidth : ℤ) ∧
      r.y + r.h ≤ (cfg.heroHeight : ℤ) := by
  unfold generate_hero_composition at hr
  split_ifs at hr with hempty
  · simp at hr
  · exact placeAll_inCanvas cfg hw hh rotDims _ rngs (shuffle processed_images) 0
      ⟨[], 0⟩ (by simp) r hr

/-- Witness for `c6_placed_rects_in_canvas`: a single 1×1 object composed
onto the 1440×720 canvas is recorded at the origin. -/
theorem c6_placed_rects_in_canvas_witness :
    1 ≤ cfgDefault.heroWidth ∧ 1 ≤ cfgDefault.heroHeight ∧
    (0 ≤ (Rect.mk 0 0 1 1).x ∧ 0 ≤ (Rect.mk 0 0 1 1).y ∧
      (Rect.mk 0 0 1 1).x + (Rect.mk 0 0 1 1).w ≤ (cfgDefault.heroWidth : ℤ) ∧
      (Rect.mk 0 0 1 1).y + (Rect.mk 0 0 1 1).h ≤ (cfgDefault.heroHeight : ℤ)) :=
  ⟨by decide, by decide,
   c6_placed_rects_in_canvas cfgDefault (by decide) (by decide) rotDimsId sqrtZero id
     rngsZero [(1, 1)] (Rect.mk 0 0 1 1) (by decide)⟩

/-- Pre-shrink of a 500×500 object at the heuristic target 1.0: the code
resizes it to 1×1. -/
theorem preShrink_500_at_one : heuristicPreShrink (500, 500) 1 = (1, 1) := by
  norm_num [heuristicPreShrink, pyInt, Int.floor_one, Int.toNat_one]

/-- Claim C1, evaluated at the failing input (claim: for
`objectCount <= 1` the returned sentinel disables the heuristic downscale,
leaving the object's dimensions unchanged).  The code returns the value
`1.0` from `_calculate_auto_scale_factor`, but `_prepare_image_for_canvas`
consumes that value as a target *dimension*: for a single 500×500 object
the guard `0 < 1.0 < 500` holds and the heuristic pre-shrink resizes the
object to 1×1 — the whole preparation pipeline (no variations, identity
rotation) emits 1×1, not 500×500. -/
theorem c1_single_object_heuristic_eval :
    _calculate_auto_scale_factor cfgDefault 1 sqrtZero = 1 ∧
    heuristicPreShrink (500, 500) (_calculate_auto_scale_factor cfgDefault 1 sqrtZero) =
      (1, 1) ∧
    _prepare_image_for_canvas cfgDefault rotDimsId trZero (500, 500)
      (_calculate_auto_scale_factor cfgDefault 1 sqrtZero) = (1, 1) ∧
    ((1, 1) : ℕ × ℕ) ≠ (500, 500) := by
  have hauto : _calculate_auto_scale_factor cfgDefault 1 sqrtZero = 1 := rfl
  have hprep : _prepare_image_for_canvas cfgDefault rotDimsId trZero (500, 500) 1 =
      (1, 1) := by
    simp only [_prepare_image_for_canvas, preShrink_500_at_one]
    simp [_apply_random_transforms, scaleStep, hardCap, cfgDefault, rotDimsId, trZero]
  exact ⟨hauto, by rw [hauto]; exact preShrink_500_at_one, by rw [hauto]; exact hprep,
    by decide⟩
